import Mathlib

/-!
Verification of the seo-inspector-api analysis service.

This file gives a shallow embedding of the logic of
`supabase/functions/analyze-seo/index.ts` (the backend edge function) and,
for the scorer, of `src/components/SEOTester.tsx` (the frontend duplicate),
and proves the specified properties about them.

Modelling conventions:
- JavaScript strings are Lean `String`s; the source treats the empty string
  and an absent field identically (all extractor lookups default to `''`,
  and scoring tests use JS truthiness, which for strings means "non-empty"),
  so optional string fields are modelled as `String` with `""` for absent.
- `Date.now()` timestamps are `Nat` milliseconds.
- The in-memory `Map`s (cache, rate-limit windows) are modelled as total
  functions with an explicit default (`Option`/`[]`), updated pointwise.
- The external collaborators that are not code of this repository — the
  DOM-based `extractMetaData` body (it delegates to the host `DOMParser`)
  and the WHATWG `new URL` validity check — are parameters of the model
  (`extract : String → String → SEOData`, `validUrl : String → Bool`).
  Every theorem quantifies over them.
- The network `fetch` is modelled by an oracle value (`FetchResult`)
  supplied per call; an output flag `fetched` records whether the handler
  reached the fetch step, so "no fetch is attempted" is expressible.
-/

/-- Prefix test on character lists: `leadsWith p s` holds when `p` is an
initial segment of `s`.  Used to build the JS `String.prototype.includes`
substring test that `index.ts` applies in scoring and error classification. -/
def leadsWith : List Char → List Char → Bool
  | [], _ => true
  | _ :: _, [] => false
  | p :: ps, c :: cs => p == c && leadsWith ps cs

/-- Substring occurrence on character lists: `occursIn pat s` holds when
`pat` occurs contiguously somewhere in `s` (JS `includes` semantics:
the empty pattern occurs in every string). -/
def occursIn (pat : List Char) : List Char → Bool
  | [] => leadsWith pat []
  | c :: rest => leadsWith pat (c :: rest) || occursIn pat rest

/-- JS `s.includes(pat)`: `pat` occurs as a contiguous substring of `s`. -/
def strIncludes (s pat : String) : Bool :=
  occursIn pat.data s.data

/-- The `SEOData` interface, declared identically in
`supabase/functions/analyze-seo/index.ts` (lines 8-27) and
`src/components/SEOTester.tsx` (lines 12-31).  All fields except `url` are
optional in the source; the extractor always materialises them with `''`
when the tag is missing, so absence is modelled as `""`. -/
structure SEOData where
  title : String := ""
  description : String := ""
  ogTitle : String := ""
  ogDescription : String := ""
  ogImage : String := ""
  ogType : String := ""
  twitterCard : String := ""
  twitterTitle : String := ""
  twitterDescription : String := ""
  twitterImage : String := ""
  canonical : String := ""
  keywords : String := ""
  url : String := ""
  h1 : String := ""
  metaRobots : String := ""
  lang : String := ""
  viewport : String := ""
  charset : String := ""
deriving Repr, DecidableEq

/-- The `breakdown` record of the `SEOScore` interface. -/
structure SEOBreakdown where
  basic : Nat
  social : Nat
  technical : Nat
deriving Repr, DecidableEq

/-- The `SEOScore` interface (both files, identical). -/
structure SEOScore where
  total : Nat
  breakdown : SEOBreakdown
deriving Repr, DecidableEq

namespace AnalyzeSeo

/-- Backend scorer, `calculateSEOScore` from
`supabase/functions/analyze-seo/index.ts` lines 80-112.  JS truthiness of a
string (`if (data.title)`) is non-emptiness; `data.metaRobots.includes`
is the substring test `strIncludes`. -/
def calculateSEOScore (data : SEOData) : SEOScore :=
  let basicScore :=
    (if data.title ≠ "" then 15 else 0) +
    (if data.description ≠ "" then 15 else 0) +
    (if data.h1 ≠ "" then 10 else 0)
  let socialScore :=
    (if data.ogTitle ≠ "" ∨ data.title ≠ "" then 8 else 0) +
    (if data.ogDescription ≠ "" ∨ data.description ≠ "" then 8 else 0) +
    (if data.ogImage ≠ "" then 14 else 0)
  let technicalScore :=
    (if data.canonical ≠ "" then 10 else 0) +
    (if data.lang ≠ "" then 5 else 0) +
    (if data.viewport ≠ "" then 5 else 0) +
    (if data.charset ≠ "" then 5 else 0) +
    (if data.metaRobots = "" ∨ strIncludes data.metaRobots "noindex" = false
      then 5 else 0)
  { total := basicScore + socialScore + technicalScore
    breakdown :=
      { basic := basicScore
        social := socialScore
        technical := technicalScore } }

end AnalyzeSeo

namespace SEOTester

/-- Frontend scorer, `calculateSEOScore` from
`src/components/SEOTester.tsx` lines 94-126 (translated independently of
the backend copy; the two source bodies are textually identical). -/
def calculateSEOScore (data : SEOData) : SEOScore :=
  let basicScore :=
    (if data.title ≠ "" then 15 else 0) +
    (if data.description ≠ "" then 15 else 0) +
    (if data.h1 ≠ "" then 10 else 0)
  let socialScore :=
    (if data.ogTitle ≠ "" ∨ data.title ≠ "" then 8 else 0) +
    (if data.ogDescription ≠ "" ∨ data.description ≠ "" then 8 else 0) +
    (if data.ogImage ≠ "" then 14 else 0)
  let technicalScore :=
    (if data.canonical ≠ "" then 10 else 0) +
    (if data.lang ≠ "" then 5 else 0) +
    (if data.viewport ≠ "" then 5 else 0) +
    (if data.charset ≠ "" then 5 else 0) +
    (if data.metaRobots = "" ∨ strIncludes data.metaRobots "noindex" = false
      then 5 else 0)
  { total := basicScore + socialScore + technicalScore
    breakdown :=
      { basic := basicScore
        social := socialScore
        technical := technicalScore } }

end SEOTester

namespace AnalyzeSeo

/-- `CACHE_TTL = 3600000` (index.ts line 116): one hour in milliseconds. -/
def CACHE_TTL : Nat := 3600000

/-- `RATE_LIMIT = 10` (index.ts line 120): requests per minute. -/
def RATE_LIMIT : Nat := 10

/-- The value part of a cache entry.  The source stores the whole response
object `{ data, score, success: true }` (plus `cached: false` in the
single-URL branch); `success` is invariably `true` and `cached` invariably
`false` in stored values, so only the varying parts are modelled. -/
structure CachedResult where
  data : SEOData
  score : SEOScore
deriving Repr, DecidableEq

/-- One record of the in-memory cache `Map` (index.ts line 115):
`{ data: <result>, timestamp: Date.now() }`. -/
structure CacheEntry where
  data : CachedResult
  timestamp : Nat
deriving Repr, DecidableEq

/-- The cache `Map<string, {data, timestamp}>`: a key that was never set
maps to `none`. -/
abbrev Cache := String → Option CacheEntry

/-- The rate-limit `Map<string, number[]>` (index.ts line 119):
`rateLimits.get(ip) || []` makes a missing key behave as `[]`, so the map
is modelled as a total function defaulting to the empty list. -/
abbrev RateLimits := String → List Nat

/-- `checkRateLimit` from index.ts lines 122-134.  Filters the identity's
window to timestamps with `now - time < 60000`, rejects without touching
the map when the filtered count has reached `RATE_LIMIT`, otherwise stores
the filtered window with `now` appended and admits. -/
def checkRateLimit (now : Nat) (ip : String) (limits : RateLimits) :
    Bool × RateLimits :=
  let requests := limits ip
  let recentRequests := requests.filter fun time => now - time < 60000
  if RATE_LIMIT ≤ recentRequests.length then
    (false, limits)
  else
    (true, fun k => if k = ip then recentRequests ++ [now] else limits k)

/-- The outcome of one `fetch(proxyUrl)` followed by `response.json()`:
either a transport error (the promise rejected with some message) or a
response carrying `ok`, `status`, and the `contents` field of the proxy's
JSON body (`""` models a missing/empty `contents`, both falsy in JS). -/
structure FetchResponse where
  ok : Bool
  status : Nat
  contents : String
deriving Repr, DecidableEq

/-- Oracle value describing what the network fetch did for one URL. -/
inductive FetchResult
  | response (r : FetchResponse)
  | transportError (msg : String)
deriving Repr, DecidableEq

/-- Error classification from the single-URL catch block, index.ts lines
296-306: a thrown `Error` whose message contains the substring `'fetch'`
becomes status 502 with a fixed message; any other message is returned
verbatim with status 500. -/
def classifyError (msg : String) : Nat × String :=
  if strIncludes msg "fetch" = true then
    (502,
     "Failed to fetch the website. The site may be blocking requests or experiencing issues.")
  else
    (500, msg)

/-- Body of a single-URL JSON response: a success payload
`{ success: true, data, score, cached }` or an error payload
`{ success: false, error }`. -/
inductive SingleBody
  | success (data : SEOData) (score : SEOScore) (cached : Bool)
  | failure (error : String)
deriving Repr, DecidableEq

/-- An HTTP response of the single-URL branch: status code plus body. -/
structure SingleResponse where
  status : Nat
  body : SingleBody
deriving Repr, DecidableEq

/-- Observable outcome of one single-URL request: the HTTP response, the
cache as left behind, and whether the handler reached the fetch step. -/
structure SingleOutcome where
  response : SingleResponse
  cache : Cache
  fetched : Bool

/-- The fetch-extract-score-store tail of the single-URL branch, index.ts
lines 257-292 with the catch block 293-319: a transport rejection or a
thrown error is classified by `classifyError`; a non-ok response throws
`Failed to fetch website: <status>`; empty `contents` throws
`No content received from the website`; otherwise the page is extracted,
scored, stored under `url` with the current timestamp, and returned with
`cached: false`. -/
def singleFetchPath (extract : String → String → SEOData) (cache : Cache)
    (now : Nat) (url : String) (fetch : FetchResult) : SingleOutcome :=
  match fetch with
  | .transportError msg =>
    let c := classifyError msg
    ⟨⟨c.1, .failure c.2⟩, cache, true⟩
  | .response r =>
    if r.ok = false then
      let c := classifyError ("Failed to fetch website: " ++ Nat.repr r.status)
      ⟨⟨c.1, .failure c.2⟩, cache, true⟩
    else if r.contents = "" then
      let c := classifyError "No content received from the website"
      ⟨⟨c.1, .failure c.2⟩, cache, true⟩
    else
      let seoData := extract r.contents url
      let seoScore := calculateSEOScore seoData
      ⟨⟨200, .success seoData seoScore false⟩,
       fun k => if k = url then some ⟨⟨seoData, seoScore⟩, now⟩ else cache k,
       true⟩

/-- The single-URL branch after a cache miss, index.ts lines 238-255 then
257-292: URL validation first (`new URL` + protocol check, modelled by the
`validUrl` parameter) answering 400 `Invalid URL format` on failure with no
fetch, then the fetch path. -/
def singleMiss (extract : String → String → SEOData)
    (validUrl : String → Bool) (cache : Cache) (now : Nat) (url : String)
    (fetch : FetchResult) : SingleOutcome :=
  if validUrl url = false then
    ⟨⟨400, .failure "Invalid URL format"⟩, cache, false⟩
  else
    singleFetchPath extract cache now url fetch

/-- The single-URL branch of the handler, index.ts lines 228-292 (after
the rate limiter admitted the request and `url` was present): the cache is
consulted first — a live entry (age strictly below `CACHE_TTL`) is replayed
with `cached: true` and no fetch; otherwise validation and the fetch path
run. -/
def singleAnalyze (extract : String → String → SEOData)
    (validUrl : String → Bool) (cache : Cache) (now : Nat) (url : String)
    (fetch : FetchResult) : SingleOutcome :=
  match cache url with
  | some e =>
    if now - e.timestamp < CACHE_TTL then
      ⟨⟨200, .success e.data.data e.data.score true⟩, cache, false⟩
    else
      singleMiss extract validUrl cache now url fetch
  | none => singleMiss extract validUrl cache now url fetch

/-- One element of the batch `results` array, index.ts lines 173-202:
`{ url, ...payload }` where the payload is a cached replay, a fresh success,
or `{ success: false, error }`.  A fresh batch success carries no `cached`
field in the source; the absent field is JS-falsy and is modelled as
`cached := false`. -/
structure BatchItem where
  url : String
  success : Bool
  data : Option SEOData
  score : Option SEOScore
  cached : Bool
  error : Option String
deriving Repr, DecidableEq

/-- Outcome of one per-URL batch task: the result slot, whether the task
reached its fetch, and the cache write it performed (if any). -/
structure BatchItemOutcome where
  item : BatchItem
  fetched : Bool
  write : Option CacheEntry
deriving Repr, DecidableEq

/-- The fetch path of one batch task, index.ts lines 181-201: the batch
branch performs no URL validation; errors are caught per-URL and produce
`{ success: false, error }` slots (messages `Failed to fetch: <status>`
and `No content received` per lines 183 and 186); a success is extracted,
scored, and recorded as a cache write with the current timestamp. -/
def batchFetchPath (extract : String → String → SEOData) (now : Nat)
    (u : String) (fetch : FetchResult) : BatchItemOutcome :=
  match fetch with
  | .transportError msg =>
    ⟨⟨u, false, none, none, false, some msg⟩, true, none⟩
  | .response r =>
    if r.ok = false then
      ⟨⟨u, false, none, none, false,
        some ("Failed to fetch: " ++ Nat.repr r.status)⟩, true, none⟩
    else if r.contents = "" then
      ⟨⟨u, false, none, none, false, some "No content received"⟩, true, none⟩
    else
      let seoData := extract r.contents u
      let seoScore := calculateSEOScore seoData
      ⟨⟨u, true, some seoData, some seoScore, false, none⟩, true,
       some ⟨⟨seoData, seoScore⟩, now⟩⟩

/-- One per-URL batch task, index.ts lines 173-202: cache check (all tasks
read the cache state from before the batch — each task's `cache.get` runs
before its first `await`), then the fetch path.  A live entry is replayed
as `{ url, ...cached.data, cached: true }` with no fetch. -/
def processBatchUrl (extract : String → String → SEOData) (cache : Cache)
    (now : Nat) (u : String) (fetch : FetchResult) : BatchItemOutcome :=
  match cache u with
  | some e =>
    if now - e.timestamp < CACHE_TTL then
      ⟨⟨u, true, some e.data.data, some e.data.score, true, none⟩, false, none⟩
    else
      batchFetchPath extract now u fetch
  | none => batchFetchPath extract now u fetch

/-- The JSON body and status of a batch response.  The 400 cap rejection
carries only `{ error }`; its absent `success` field is JS-falsy and is
modelled as `success := false` with `results := []`. -/
structure BatchResponse where
  status : Nat
  success : Bool
  results : List BatchItem
  error : Option String
deriving Repr, DecidableEq

/-- Outcome of a batch request: the response plus the list of per-URL task
outcomes that actually ran (empty when the cap rejected the batch before
any per-URL work). -/
structure BatchOutcome where
  response : BatchResponse
  work : List BatchItemOutcome
deriving Repr, DecidableEq

/-- The batch branch of the handler, index.ts lines 161-209 (after the rate
limiter admitted the request): more than 5 URLs is rejected with 400
`Maximum 5 URLs allowed per batch request` before any per-URL task starts;
otherwise every URL is processed (concurrently in the source; each task is
a pure function of its own URL, its own fetch oracle, and the pre-batch
cache) and the response is 200 with `success: true` and one result per URL
in input order. -/
def analyzeBatch (extract : String → String → SEOData) (cache : Cache)
    (now : Nat) (urls : List String) (fetches : List FetchResult) :
    BatchOutcome :=
  if 5 < urls.length then
    ⟨⟨400, false, [], some "Maximum 5 URLs allowed per batch request"⟩, []⟩
  else
    let w := List.zipWith (processBatchUrl extract cache now) urls fetches
    ⟨⟨200, true, w.map BatchItemOutcome.item, none⟩, w⟩

end AnalyzeSeo

/-- Names for the fields of a metadata record, used to state field-wise
monotonicity of the scorer. -/
inductive SEOField
  | title | description | ogTitle | ogDescription | ogImage | ogType
  | twitterCard | twitterTitle | twitterDescription | twitterImage
  | canonical | keywords | url | h1 | metaRobots | lang | viewport | charset
deriving Repr, DecidableEq

/-- Read one field of a metadata record. -/
def getField (d : SEOData) : SEOField → String
  | .title => d.title
  | .description => d.description
  | .ogTitle => d.ogTitle
  | .ogDescription => d.ogDescription
  | .ogImage => d.ogImage
  | .ogType => d.ogType
  | .twitterCard => d.twitterCard
  | .twitterTitle => d.twitterTitle
  | .twitterDescription => d.twitterDescription
  | .twitterImage => d.twitterImage
  | .canonical => d.canonical
  | .keywords => d.keywords
  | .url => d.url
  | .h1 => d.h1
  | .metaRobots => d.metaRobots
  | .lang => d.lang
  | .viewport => d.viewport
  | .charset => d.charset

/-- Replace one field of a metadata record. -/
def setField (d : SEOData) (f : SEOField) (v : String) : SEOData :=
  match f with
  | .title => { d with title := v }
  | .description => { d with description := v }
  | .ogTitle => { d with ogTitle := v }
  | .ogDescription => { d with ogDescription := v }
  | .ogImage => { d with ogImage := v }
  | .ogType => { d with ogType := v }
  | .twitterCard => { d with twitterCard := v }
  | .twitterTitle => { d with twitterTitle := v }
  | .twitterDescription => { d with twitterDescription := v }
  | .twitterImage => { d with twitterImage := v }
  | .canonical => { d with canonical := v }
  | .keywords => { d with keywords := v }
  | .url => { d with url := v }
  | .h1 => { d with h1 := v }
  | .metaRobots => { d with metaRobots := v }
  | .lang => { d with lang := v }
  | .viewport => { d with viewport := v }
  | .charset => { d with charset := v }

/-- A qualifying value for a field: non-empty, and for `metaRobots` also
free of the substring `noindex` (the only field whose scoring rule can be
spoiled by a value). -/
def qualifies (f : SEOField) (v : String) : Bool :=
  (v != "") && (!(f == SEOField.metaRobots) || !(strIncludes v "noindex"))

/-- The empty metadata record of the spec's test: `{url: "https://x.com"}`,
every other field absent. -/
def emptyRecord : SEOData := { url := "https://x.com" }

/-- Extractor stub used for concrete witnesses: every page maps to the
empty record.  Witnesses only need some concrete instantiation of the
abstract extractor parameter. -/
def extractNothing : String → String → SEOData := fun _ _ => emptyRecord

/-- A prefix of `a` is also a prefix of `a ++ b`. -/
theorem leadsWith_append (p a b : List Char) (h : leadsWith p a = true) :
    leadsWith p (a ++ b) = true := by
  induction p generalizing a with
  | nil => rfl
  | cons x ps ih =>
    cases a with
    | nil => simp [leadsWith] at h
    | cons c cs =>
      simp only [leadsWith, Bool.and_eq_true] at h ⊢
      exact ⟨h.1, ih cs h.2⟩

/-- The empty pattern occurs in every string. -/
theorem occursIn_nil (s : List Char) : occursIn [] s = true := by
  cases s <;> simp [occursIn, leadsWith]

/-- A substring of `a` is a substring of `a ++ b`. -/
theorem occursIn_append_left (p a b : List Char) (h : occursIn p a = true) :
    occursIn p (a ++ b) = true := by
  induction a with
  | nil =>
    simp only [occursIn] at h
    cases p with
    | nil => simpa using occursIn_nil b
    | cons x ps => simp [leadsWith] at h
  | cons c cs ih =>
    simp only [occursIn, Bool.or_eq_true] at h
    rcases h with h | h
    · simp only [List.cons_append, occursIn, Bool.or_eq_true]
      exact Or.inl (leadsWith_append p (c :: cs) b h)
    · simp only [List.cons_append, occursIn, Bool.or_eq_true]
      exact Or.inr (ih h)

/-- JS `includes` is preserved by appending on the right. -/
theorem strIncludes_append_left (s t pat : String)
    (h : strIncludes s pat = true) : strIncludes (s ++ t) pat = true := by
  simpa [strIncludes, String.data_append] using
    occursIn_append_left pat.data s.data t.data (by simpa [strIncludes] using h)

/-- Every message thrown for a non-ok upstream response contains the
substring `fetch`, whatever the status code. -/
theorem fetch_msg_includes_fetch (st : Nat) :
    strIncludes ("Failed to fetch website: " ++ Nat.repr st) "fetch" = true :=
  strIncludes_append_left "Failed to fetch website: " (Nat.repr st) "fetch"
    (by decide)

/-- Dropping an element that fails the predicate makes the filter strictly
shorter than the list. -/
theorem length_filter_lt_of_mem {α : Type} (p : α → Bool) (l : List α)
    (a : α) (ha : a ∈ l) (hpa : p a = false) :
    (l.filter p).length < l.length := by
  induction l with
  | nil => cases ha
  | cons x xs ih =>
    rcases List.mem_cons.mp ha with rfl | hmem
    · have hle := List.length_filter_le p xs
      simp [List.filter_cons, hpa]
      omega
    · by_cases hx : p x = true
      · have := ih hmem
        simp [List.filter_cons, hx]
        omega
      · have := ih hmem
        have hle := List.length_filter_le p xs
        simp [List.filter_cons, Bool.eq_false_iff.mpr hx]
        omega

/-- C1: for every metadata record the backend scorer returns a breakdown
whose total equals basic + social + technical, with basic at most 40,
social at most 30, technical at most 30, and hence total at most 100 (the
scores live in `Nat`, so the lower bound 0 of each interval holds by
construction). -/
theorem score_total_and_bounds (d : SEOData) :
    (AnalyzeSeo.calculateSEOScore d).total
        = (AnalyzeSeo.calculateSEOScore d).breakdown.basic
            + (AnalyzeSeo.calculateSEOScore d).breakdown.social
            + (AnalyzeSeo.calculateSEOScore d).breakdown.technical
    ∧ (AnalyzeSeo.calculateSEOScore d).breakdown.basic ≤ 40
    ∧ (AnalyzeSeo.calculateSEOScore d).breakdown.social ≤ 30
    ∧ (AnalyzeSeo.calculateSEOScore d).breakdown.technical ≤ 30
    ∧ (AnalyzeSeo.calculateSEOScore d).total ≤ 100 := by
  have hb : (AnalyzeSeo.calculateSEOScore d).breakdown.basic ≤ 40 := by
    simp only [AnalyzeSeo.calculateSEOScore]
    split_ifs <;> omega
  have hs : (AnalyzeSeo.calculateSEOScore d).breakdown.social ≤ 30 := by
    simp only [AnalyzeSeo.calculateSEOScore]
    split_ifs <;> omega
  have ht : (AnalyzeSeo.calculateSEOScore d).breakdown.technical ≤ 30 := by
    simp only [AnalyzeSeo.calculateSEOScore]
    split_ifs <;> omega
  have htot : (AnalyzeSeo.calculateSEOScore d).total
      = (AnalyzeSeo.calculateSEOScore d).breakdown.basic
          + (AnalyzeSeo.calculateSEOScore d).breakdown.social
          + (AnalyzeSeo.calculateSEOScore d).breakdown.technical := rfl
  exact ⟨htot, hb, hs, ht, by omega⟩

/-- C5 counterexample: the scorer does not return the all-zero breakdown on
the empty record `{url := "https://x.com"}` — the `metaRobots` rule grants
5 technical points when the field is empty. -/
theorem empty_record_not_all_zero :
    ¬ (AnalyzeSeo.calculateSEOScore emptyRecord
        = { total := 0
            breakdown := { basic := 0, social := 0, technical := 0 } }) := by
  decide

/-- C5 amended: on the empty record the scorer returns total = 5,
basic = 0, social = 0 and technical = 5, because the technical rule
`+5 if metaRobots is empty or lacks "noindex"` fires on the empty field. -/
theorem empty_record_score :
    AnalyzeSeo.calculateSEOScore emptyRecord
      = { total := 5
          breakdown := { basic := 0, social := 0, technical := 5 } } := by
  decide

/-- C9: the frontend scorer of `SEOTester.tsx` and the backend scorer of
`analyze-seo/index.ts` agree on every metadata record, in total and in the
whole basic/social/technical breakdown. -/
theorem frontend_backend_scorer_agree (d : SEOData) :
    SEOTester.calculateSEOScore d = AnalyzeSeo.calculateSEOScore d := rfl

/-- C3: one admit call of the rate limiter.  It first restricts the
identity's window to the timestamps still inside the trailing 60-second
interval (`now - t < 60000`, i.e. it discards the timestamps that are 60
seconds old or older); it admits exactly when the retained count is below
the limit 10; on admission it records `now` (storing retained ++ [now]);
on rejection it records nothing and leaves the map untouched; other
identities are never affected.  Consequently a window of 10 timestamps all
inside the last 60 seconds rejects the 11th request, and a full window
whose oldest timestamp has aged 60 seconds or more (in particular, past 60
seconds) admits again. -/
theorem checkRateLimit_spec (now : Nat) (ip : String)
    (limits : AnalyzeSeo.RateLimits) :
    ((AnalyzeSeo.checkRateLimit now ip limits).1 = true
        ↔ ((limits ip).filter fun t => now - t < 60000).length
            < AnalyzeSeo.RATE_LIMIT)
    ∧ ((AnalyzeSeo.checkRateLimit now ip limits).1 = true →
        (AnalyzeSeo.checkRateLimit now ip limits).2 ip
          = ((limits ip).filter fun t => now - t < 60000) ++ [now])
    ∧ ((AnalyzeSeo.checkRateLimit now ip limits).1 = false →
        (AnalyzeSeo.checkRateLimit now ip limits).2 = limits)
    ∧ (∀ k, ¬ k = ip →
        (AnalyzeSeo.checkRateLimit now ip limits).2 k = limits k)
    ∧ ((limits ip).length = 10 → (∀ t ∈ limits ip, now - t < 60000) →
        (AnalyzeSeo.checkRateLimit now ip limits).1 = false)
    ∧ ((limits ip).length = 10 →
        ∀ t0 ∈ limits ip, 60000 ≤ now - t0 →
          (AnalyzeSeo.checkRateLimit now ip limits).1 = true) := by
  simp only [AnalyzeSeo.checkRateLimit, AnalyzeSeo.RATE_LIMIT]
  by_cases h : 10 ≤ ((limits ip).filter fun t => now - t < 60000).length
  · rw [if_pos h]
    refine ⟨by simpa using h, by simp, fun _ => rfl, fun k _ => rfl, fun _ _ => rfl, ?_⟩
    intro hlen t0 ht0 hold
    have hfl := length_filter_lt_of_mem (fun t => decide (now - t < 60000))
      (limits ip) t0 ht0 (by simp; omega)
    omega
  · rw [if_neg h]
    refine ⟨by simpa using Nat.lt_of_not_le (by simpa using h), ?_, by simp,
      ?_, ?_, fun _ _ _ _ => rfl⟩
    · intro _
      simp
    · intro k hk
      simp [hk]
    · intro hlen hall
      exfalso
      have : (limits ip).filter (fun t => now - t < 60000) = limits ip :=
        List.filter_eq_self.mpr (by simpa using hall)
      rw [this] at h
      omega

/-- C3 witness: with a window of ten timestamps at time 0 for one client,
the 11th request at 59999 ms is rejected, and a request at 60000 ms (once
the whole window has aged out) is admitted again. -/
theorem checkRateLimit_witness :
    (AnalyzeSeo.checkRateLimit 59999 "203.0.113.7"
        (fun _ => List.replicate 10 0)).1 = false
    ∧ (AnalyzeSeo.checkRateLimit 60000 "203.0.113.7"
        (fun _ => List.replicate 10 0)).1 = true := by
  constructor
  · exact (checkRateLimit_spec 59999 "203.0.113.7"
      (fun _ => List.replicate 10 0)).2.2.2.2.1 (by decide) (by decide)
  · exact (checkRateLimit_spec 60000 "203.0.113.7"
      (fun _ => List.replicate 10 0)).2.2.2.2.2 (by decide) 0 (by decide)
      (by decide)

/-- C8: scoring is monotonic.  For any record, any field that is empty in
it, and any qualifying replacement value (non-empty; for `metaRobots`, also
free of the substring `noindex`, since that is the one rule a value can
disable), writing the value into the field never decreases any of the
three band scores. -/
theorem score_monotone (d : SEOData) (f : SEOField) (v : String)
    (hempty : getField d f = "") (hq : qualifies f v = true) :
    (AnalyzeSeo.calculateSEOScore d).breakdown.basic
        ≤ (AnalyzeSeo.calculateSEOScore (setField d f v)).breakdown.basic
    ∧ (AnalyzeSeo.calculateSEOScore d).breakdown.social
        ≤ (AnalyzeSeo.calculateSEOScore (setField d f v)).breakdown.social
    ∧ (AnalyzeSeo.calculateSEOScore d).breakdown.technical
        ≤ (AnalyzeSeo.calculateSEOScore (setField d f v)).breakdown.technical := by
  cases f <;>
    (simp only [getField] at hempty
     simp [qualifies] at hq
     refine ⟨?_, ?_, ?_⟩ <;>
       simp [setField, AnalyzeSeo.calculateSEOScore, hempty, hq] <;>
       split_ifs <;>
       omega)

/-- C8 witness: adding an `ogImage` to the empty record never decreases any
band (here basic and technical stay, social rises from 0 to 14). -/
theorem score_monotone_witness :
    getField emptyRecord SEOField.ogImage = ""
    ∧ qualifies SEOField.ogImage "https://img.example/x.png" = true
    ∧ ((AnalyzeSeo.calculateSEOScore emptyRecord).breakdown.basic
        ≤ (AnalyzeSeo.calculateSEOScore
            (setField emptyRecord SEOField.ogImage
              "https://img.example/x.png")).breakdown.basic
      ∧ (AnalyzeSeo.calculateSEOScore emptyRecord).breakdown.social
          ≤ (AnalyzeSeo.calculateSEOScore
              (setField emptyRecord SEOField.ogImage
                "https://img.example/x.png")).breakdown.social
      ∧ (AnalyzeSeo.calculateSEOScore emptyRecord).breakdown.technical
          ≤ (AnalyzeSeo.calculateSEOScore
              (setField emptyRecord SEOField.ogImage
                "https://img.example/x.png")).breakdown.technical) :=
  ⟨by decide, by decide,
   score_monotone emptyRecord SEOField.ogImage "https://img.example/x.png"
     (by decide) (by decide)⟩

/-- C2: cache behaviour of the single-URL pipeline.  A first call for a
valid, uncached URL fetches, answers 200 with `cached: false`, and stores
the extracted data and score under the URL with its own timestamp.  A
second call for the same URL whose age `t1 - t0` is below the TTL performs
no fetch and returns `cached: true` with exactly the first call's data and
score, leaving the cache untouched; once the age reaches or exceeds the
TTL the lookup acts as a miss, a fetch occurs, and (when that fetch
succeeds with a non-empty body) its result overwrites the entry with the
new timestamp.  (A failed re-fetch produces no result and therefore no
overwrite — the error path never writes.) -/
theorem analyze_cache_ttl (extract : String → String → SEOData)
    (validUrl : String → Bool) (cache : AnalyzeSeo.Cache) (t0 t1 : Nat)
    (url c : String) (fetch2 : AnalyzeSeo.FetchResult)
    (hmiss : cache url = none) (hv : validUrl url = true) (hc : ¬ c = "") :
    let o1 := AnalyzeSeo.singleAnalyze extract validUrl cache t0 url
      (AnalyzeSeo.FetchResult.response ⟨true, 200, c⟩)
    let d := extract c url
    let s := AnalyzeSeo.calculateSEOScore d
    let o2 := AnalyzeSeo.singleAnalyze extract validUrl o1.cache t1 url fetch2
    (o1.fetched = true
      ∧ o1.response = ⟨200, AnalyzeSeo.SingleBody.success d s false⟩
      ∧ o1.cache url = some ⟨⟨d, s⟩, t0⟩)
    ∧ (t1 - t0 < AnalyzeSeo.CACHE_TTL →
        o2.fetched = false
        ∧ o2.response = ⟨200, AnalyzeSeo.SingleBody.success d s true⟩
        ∧ o2.cache = o1.cache)
    ∧ (AnalyzeSeo.CACHE_TTL ≤ t1 - t0 →
        o2.fetched = true
        ∧ ∀ st c2, ¬ c2 = "" →
            fetch2 = AnalyzeSeo.FetchResult.response ⟨true, st, c2⟩ →
            o2.cache url
              = some ⟨⟨extract c2 url,
                       AnalyzeSeo.calculateSEOScore (extract c2 url)⟩, t1⟩) := by
  intro o1 d s o2
  have h1 : o1 = ⟨⟨200, AnalyzeSeo.SingleBody.success d s false⟩,
      fun k => if k = url then some ⟨⟨d, s⟩, t0⟩ else cache k, true⟩ := by
    simp only [o1, AnalyzeSeo.singleAnalyze, hmiss, AnalyzeSeo.singleMiss, hv,
      AnalyzeSeo.singleFetchPath]
    simp [hc]
  have hcu : o1.cache url = some ⟨⟨d, s⟩, t0⟩ := by
    rw [h1]
    simp
  refine ⟨⟨by rw [h1], by rw [h1], hcu⟩, ?_, ?_⟩
  · intro hlive
    have h2 : o2 = ⟨⟨200, AnalyzeSeo.SingleBody.success d s true⟩,
        o1.cache, false⟩ := by
      simp only [o2, AnalyzeSeo.singleAnalyze, hcu]
      rw [if_pos hlive]
    exact ⟨by rw [h2], by rw [h2], by rw [h2]⟩
  · intro hstale
    have hnl : ¬ (t1 - t0 < AnalyzeSeo.CACHE_TTL) := by omega
    have h2 : o2 = AnalyzeSeo.singleMiss extract validUrl o1.cache t1 url
        fetch2 := by
      simp only [o2, AnalyzeSeo.singleAnalyze, hcu]
      rw [if_neg hnl]
    constructor
    · rw [h2]
      simp only [AnalyzeSeo.singleMiss, hv]
      simp only [AnalyzeSeo.singleFetchPath]
      cases fetch2 with
      | transportError msg => rfl
      | response r =>
        by_cases hok : r.ok = false
        · simp [hok]
        · by_cases hct : r.contents = ""
          · simp [hok, hct]
          · simp [hok, hct]
    · intro st c2 hc2 hf
      subst hf
      rw [h2]
      simp only [AnalyzeSeo.singleMiss, hv]
      simp [AnalyzeSeo.singleFetchPath, hc2]

/-- C2 witness: a second request for `https://x.com` one millisecond after
the first is served from the cache — no fetch, `cached: true`, identical
data and score. -/
theorem analyze_cache_ttl_witness :
    (AnalyzeSeo.singleAnalyze extractNothing (fun _ => true)
        ((AnalyzeSeo.singleAnalyze extractNothing (fun _ => true)
            (fun _ => none) 0 "https://x.com"
            (AnalyzeSeo.FetchResult.response ⟨true, 200, "<html></html>"⟩)).cache)
        1 "https://x.com"
        (AnalyzeSeo.FetchResult.response ⟨true, 200, "second"⟩)).fetched = false
    ∧ (AnalyzeSeo.singleAnalyze extractNothing (fun _ => true)
        ((AnalyzeSeo.singleAnalyze extractNothing (fun _ => true)
            (fun _ => none) 0 "https://x.com"
            (AnalyzeSeo.FetchResult.response ⟨true, 200, "<html></html>"⟩)).cache)
        1 "https://x.com"
        (AnalyzeSeo.FetchResult.response ⟨true, 200, "second"⟩)).response
      = ⟨200, AnalyzeSeo.SingleBody.success emptyRecord
          (AnalyzeSeo.calculateSEOScore emptyRecord) true⟩ := by
  have h := analyze_cache_ttl extractNothing (fun _ => true) (fun _ => none)
    0 1 "https://x.com" "<html></html>"
    (AnalyzeSeo.FetchResult.response ⟨true, 200, "second"⟩)
    rfl rfl (by decide)
  exact ⟨(h.2.1 (by decide)).1, (h.2.1 (by decide)).2.1⟩

/-- The fetch path of a batch task always reports the task's own URL in
its result slot. -/
theorem batchFetchPath_url (extract : String → String → SEOData) (now : Nat)
    (u : String) (fetch : AnalyzeSeo.FetchResult) :
    (AnalyzeSeo.batchFetchPath extract now u fetch).item.url = u := by
  cases fetch with
  | transportError msg => rfl
  | response r =>
    by_cases hok : r.ok = false
    · simp [AnalyzeSeo.batchFetchPath, hok]
    · by_cases hct : r.contents = ""
      · simp [AnalyzeSeo.batchFetchPath, hok, hct]
      · simp [AnalyzeSeo.batchFetchPath, hok, hct]

/-- A batch task always reports the task's own URL in its result slot. -/
theorem processBatchUrl_url (extract : String → String → SEOData)
    (cache : AnalyzeSeo.Cache) (now : Nat) (u : String)
    (fetch : AnalyzeSeo.FetchResult) :
    (AnalyzeSeo.processBatchUrl extract cache now u fetch).item.url = u := by
  cases hcu : cache u with
  | none => simp [AnalyzeSeo.processBatchUrl, hcu, batchFetchPath_url]
  | some e =>
    by_cases hl : now - e.timestamp < AnalyzeSeo.CACHE_TTL
    · simp [AnalyzeSeo.processBatchUrl, hcu, hl]
    · simp [AnalyzeSeo.processBatchUrl, hcu, hl, batchFetchPath_url]

/-- C4: a batch of more than 5 URLs is rejected whole with the 400
`Maximum 5 URLs allowed per batch request` response before any per-URL
task runs (`work = []`); otherwise the response carries exactly one result
per input URL, slot `i` is the outcome of processing input URL `i` with
its own fetch oracle alone (so one URL's failure cannot affect another
slot), and slot `i` names input URL `i` (results are in input order). -/
theorem batch_cap_order_isolation (extract : String → String → SEOData)
    (cache : AnalyzeSeo.Cache) (now : Nat) (urls : List String)
    (fetches : List AnalyzeSeo.FetchResult) :
    (5 < urls.length →
      (AnalyzeSeo.analyzeBatch extract cache now urls fetches).response
        = ⟨400, false, [], some "Maximum 5 URLs allowed per batch request"⟩
      ∧ (AnalyzeSeo.analyzeBatch extract cache now urls fetches).work = [])
    ∧ (urls.length ≤ 5 → fetches.length = urls.length →
        (AnalyzeSeo.analyzeBatch extract cache now urls
            fetches).response.results.length = urls.length
        ∧ ∀ (i : Nat) (u : String) (f : AnalyzeSeo.FetchResult),
            urls[i]? = some u → fetches[i]? = some f →
            (AnalyzeSeo.analyzeBatch extract cache now urls
                fetches).response.results[i]?
              = some (AnalyzeSeo.processBatchUrl extract cache now u f).item
            ∧ (AnalyzeSeo.processBatchUrl extract cache now u f).item.url
              = u) := by
  constructor
  · intro h6
    simp only [AnalyzeSeo.analyzeBatch]
    rw [if_pos h6]
    exact ⟨rfl, rfl⟩
  · intro h5 hlen
    have hne : ¬ (5 < urls.length) := by omega
    simp only [AnalyzeSeo.analyzeBatch]
    rw [if_neg hne]
    constructor
    · simp [List.length_zipWith, hlen]
    · intro i u f hu hf
      refine ⟨?_, processBatchUrl_url extract cache now u f⟩
      simp [List.getElem?_map, List.getElem?_zipWith, hu, hf]

/-- C4 witness: six URLs are rejected with no per-URL work, and a
two-URL batch (one fetch succeeding, one failing in transport) yields two
result slots. -/
theorem batch_cap_order_isolation_witness :
    (AnalyzeSeo.analyzeBatch extractNothing (fun _ => none) 0
        ["u1", "u2", "u3", "u4", "u5", "u6"] []).work = []
    ∧ (AnalyzeSeo.analyzeBatch extractNothing (fun _ => none) 0
        ["https://a.example", "https://b.example"]
        [AnalyzeSeo.FetchResult.response ⟨true, 200, "<html></html>"⟩,
         AnalyzeSeo.FetchResult.transportError "boom"]).response.results.length
      = 2 :=
  ⟨((batch_cap_order_isolation extractNothing (fun _ => none) 0
      ["u1", "u2", "u3", "u4", "u5", "u6"] []).1 (by decide)).2,
   ((batch_cap_order_isolation extractNothing (fun _ => none) 0
      ["https://a.example", "https://b.example"]
      [AnalyzeSeo.FetchResult.response ⟨true, 200, "<html></html>"⟩,
       AnalyzeSeo.FetchResult.transportError "boom"]).2 (by decide)
      (by decide)).1⟩

/-- C10: every batch that reaches the batch branch (rate limiter passed)
with at most 5 URLs is answered with HTTP status 200 and top-level
`success: true`, whatever the per-URL outcomes are — per-URL errors are
captured inside `results` and never change the batch status. -/
theorem batch_response_always_ok (extract : String → String → SEOData)
    (cache : AnalyzeSeo.Cache) (now : Nat) (urls : List String)
    (fetches : List AnalyzeSeo.FetchResult) (h : urls.length ≤ 5) :
    (AnalyzeSeo.analyzeBatch extract cache now urls
        fetches).response.status = 200
    ∧ (AnalyzeSeo.analyzeBatch extract cache now urls
        fetches).response.success = true := by
  simp only [AnalyzeSeo.analyzeBatch]
  rw [if_neg (by omega)]
  exact ⟨rfl, rfl⟩

/-- C10 witness: a batch whose only URL fails in transport still answers
200 with `success: true`; the failure sits inside the result slot. -/
theorem batch_response_always_ok_witness :
    ((AnalyzeSeo.analyzeBatch extractNothing (fun _ => none) 0
        ["https://a.example"]
        [AnalyzeSeo.FetchResult.transportError "boom"]).response.status = 200
      ∧ (AnalyzeSeo.analyzeBatch extractNothing (fun _ => none) 0
          ["https://a.example"]
          [AnalyzeSeo.FetchResult.transportError "boom"]).response.success
        = true)
    ∧ (AnalyzeSeo.analyzeBatch extractNothing (fun _ => none) 0
        ["https://a.example"]
        [AnalyzeSeo.FetchResult.transportError "boom"]).response.results
      = [⟨"https://a.example", false, none, none, false, some "boom"⟩] :=
  ⟨batch_response_always_ok extractNothing (fun _ => none) 0
      ["https://a.example"] [AnalyzeSeo.FetchResult.transportError "boom"]
      (by decide),
   by decide⟩

/-- C6 counterexample: in batch mode the URL is never validated.  For the
batch request `["not-a-url"]` the task still reaches its fetch
(`fetched = true`), the batch answers 200 rather than a 400 `InvalidUrl`,
and the fetch failure lands in the result slot. -/
theorem batch_invalid_url_fetches :
    (AnalyzeSeo.processBatchUrl extractNothing (fun _ => none) 0 "not-a-url"
        (AnalyzeSeo.FetchResult.transportError "boom")).fetched = true
    ∧ (AnalyzeSeo.analyzeBatch extractNothing (fun _ => none) 0 ["not-a-url"]
        [AnalyzeSeo.FetchResult.transportError "boom"]).response.status = 200
    ∧ (AnalyzeSeo.analyzeBatch extractNothing (fun _ => none) 0 ["not-a-url"]
        [AnalyzeSeo.FetchResult.transportError "boom"]).response.results
      = [⟨"not-a-url", false, none, none, false, some "boom"⟩] := by
  refine ⟨by decide, by decide, by decide⟩

/-- C6 amended: in single-URL mode a URL that fails validation (and has no
live cache entry — the cache is consulted before validation) is answered
400 `Invalid URL format` with no fetch and no cache change; in batch mode
URLs are not validated at all: a cache-missing URL is always handed to the
fetcher, whose failure is captured in that URL's result slot. -/
theorem invalid_url_single_mode_only (extract : String → String → SEOData)
    (validUrl : String → Bool) (cache : AnalyzeSeo.Cache) (now : Nat)
    (url : String) (fetch : AnalyzeSeo.FetchResult)
    (hmiss : cache url = none) (hv : validUrl url = false) :
    (AnalyzeSeo.singleAnalyze extract validUrl cache now url fetch).response
      = ⟨400, AnalyzeSeo.SingleBody.failure "Invalid URL format"⟩
    ∧ (AnalyzeSeo.singleAnalyze extract validUrl cache now url
        fetch).fetched = false
    ∧ (AnalyzeSeo.singleAnalyze extract validUrl cache now url fetch).cache
      = cache
    ∧ (AnalyzeSeo.processBatchUrl extract cache now url fetch).fetched
      = true := by
  have hs : AnalyzeSeo.singleAnalyze extract validUrl cache now url fetch
      = ⟨⟨400, AnalyzeSeo.SingleBody.failure "Invalid URL format"⟩, cache,
         false⟩ := by
    simp [AnalyzeSeo.singleAnalyze, hmiss, AnalyzeSeo.singleMiss, hv]
  refine ⟨by rw [hs], by rw [hs], by rw [hs], ?_⟩
  simp only [AnalyzeSeo.processBatchUrl, hmiss]
  cases fetch with
  | transportError msg => rfl
  | response r =>
    by_cases hok : r.ok = false
    · simp [AnalyzeSeo.batchFetchPath, hok]
    · by_cases hct : r.contents = ""
      · simp [AnalyzeSeo.batchFetchPath, hok, hct]
      · simp [AnalyzeSeo.batchFetchPath, hok, hct]

/-- C6 witness: for `not-a-url` (validator false, cache empty) the single
branch answers 400 with no fetch. -/
theorem invalid_url_single_mode_only_witness :
    (AnalyzeSeo.singleAnalyze extractNothing (fun _ => false) (fun _ => none)
        0 "not-a-url" (AnalyzeSeo.FetchResult.transportError "x")).response
      = ⟨400, AnalyzeSeo.SingleBody.failure "Invalid URL format"⟩
    ∧ (AnalyzeSeo.singleAnalyze extractNothing (fun _ => false)
        (fun _ => none) 0 "not-a-url"
        (AnalyzeSeo.FetchResult.transportError "x")).fetched = false :=
  ⟨(invalid_url_single_mode_only extractNothing (fun _ => false)
      (fun _ => none) 0 "not-a-url" (AnalyzeSeo.FetchResult.transportError "x")
      rfl rfl).1,
   (invalid_url_single_mode_only extractNothing (fun _ => false)
      (fun _ => none) 0 "not-a-url" (AnalyzeSeo.FetchResult.transportError "x")
      rfl rfl).2.1⟩

/-- C7 counterexample: a fetch that returns OK with an empty body makes the
single-URL branch throw `No content received from the website`; that
message does not contain the substring `fetch`, so the catch block leaves
the status at 500 — not the 502 the claim requires for all three
fetcher-failure cases. -/
theorem empty_body_status_500 :
    (AnalyzeSeo.singleAnalyze extractNothing (fun _ => true) (fun _ => none)
        0 "https://example.com"
        (AnalyzeSeo.FetchResult.response ⟨true, 200, ""⟩)).response.status
      = 500
    ∧ ¬ ((AnalyzeSeo.singleAnalyze extractNothing (fun _ => true)
        (fun _ => none) 0 "https://example.com"
        (AnalyzeSeo.FetchResult.response ⟨true, 200, ""⟩)).response.status
      = 502)
    ∧ (AnalyzeSeo.singleAnalyze extractNothing (fun _ => true) (fun _ => none)
        0 "https://example.com"
        (AnalyzeSeo.FetchResult.response ⟨true, 200, ""⟩)).response.body
      = AnalyzeSeo.SingleBody.failure "No content received from the website"
      := by
  refine ⟨by decide, by decide, by decide⟩

/-- C7 amended: on a cache miss for a valid URL, a non-success upstream
status is answered 502 (its thrown message `Failed to fetch website: ...`
always contains `fetch`); an empty fetched body is answered 500 with the
verbatim message `No content received from the website` (it lacks the
substring `fetch`); a transport error is answered 502 exactly when the
runtime's rejection message contains `fetch`, and otherwise 500 with the
message verbatim. -/
theorem fetch_failure_classification (extract : String → String → SEOData)
    (validUrl : String → Bool) (cache : AnalyzeSeo.Cache) (now : Nat)
    (url : String) (hmiss : cache url = none) (hv : validUrl url = true) :
    (∀ st c, (AnalyzeSeo.singleAnalyze extract validUrl cache now url
        (AnalyzeSeo.FetchResult.response ⟨false, st, c⟩)).response
      = ⟨502, AnalyzeSeo.SingleBody.failure
          "Failed to fetch the website. The site may be blocking requests or experiencing issues."⟩)
    ∧ (∀ st, (AnalyzeSeo.singleAnalyze extract validUrl cache now url
        (AnalyzeSeo.FetchResult.response ⟨true, st, ""⟩)).response
      = ⟨500, AnalyzeSeo.SingleBody.failure
          "No content received from the website"⟩)
    ∧ (∀ msg, strIncludes msg "fetch" = true →
        (AnalyzeSeo.singleAnalyze extract validUrl cache now url
            (AnalyzeSeo.FetchResult.transportError msg)).response
          = ⟨502, AnalyzeSeo.SingleBody.failure
              "Failed to fetch the website. The site may be blocking requests or experiencing issues."⟩)
    ∧ (∀ msg, strIncludes msg "fetch" = false →
        (AnalyzeSeo.singleAnalyze extract validUrl cache now url
            (AnalyzeSeo.FetchResult.transportError msg)).response
          = ⟨500, AnalyzeSeo.SingleBody.failure msg⟩) := by
  have hstep : ∀ fetch, AnalyzeSeo.singleAnalyze extract validUrl cache now
      url fetch = AnalyzeSeo.singleFetchPath extract cache now url fetch := by
    intro fetch
    simp [AnalyzeSeo.singleAnalyze, hmiss, AnalyzeSeo.singleMiss, hv]
  have hnofetch :
      strIncludes "No content received from the website" "fetch" = false := by
    decide
  refine ⟨?_, ?_, ?_, ?_⟩
  · intro st c
    rw [hstep]
    simp [AnalyzeSeo.singleFetchPath, AnalyzeSeo.classifyError,
      fetch_msg_includes_fetch st]
  · intro st
    rw [hstep]
    simp [AnalyzeSeo.singleFetchPath, AnalyzeSeo.classifyError, hnofetch]
  · intro msg hmsg
    rw [hstep]
    simp [AnalyzeSeo.singleFetchPath, AnalyzeSeo.classifyError, hmsg]
  · intro msg hmsg
    rw [hstep]
    simp [AnalyzeSeo.singleFetchPath, AnalyzeSeo.classifyError, hmsg]

/-- C7 witness: a 404 upstream status is answered 502, while an empty body
is answered 500. -/
theorem fetch_failure_classification_witness :
    (AnalyzeSeo.singleAnalyze extractNothing (fun _ => true) (fun _ => none)
        0 "https://w.example"
        (AnalyzeSeo.FetchResult.response ⟨false, 404, ""⟩)).response.status
      = 502
    ∧ (AnalyzeSeo.singleAnalyze extractNothing (fun _ => true)
        (fun _ => none) 0 "https://w.example"
        (AnalyzeSeo.FetchResult.response ⟨true, 200, ""⟩)).response.status
      = 500 := by
  have h := fetch_failure_classification extractNothing (fun _ => true)
    (fun _ => none) 0 "https://w.example" rfl rfl
  exact ⟨by rw [h.1 404 ""], by rw [h.2.1 200]⟩
